import Mathlib

/-!
Shallow embedding of the Connelaide API data-model core (`src/main.py`,
`src/models.py`, `src/schemas.py`).

The persistent store (PostgreSQL accessed through SQLAlchemy) is modelled as a
`Store` record of lists of rows; SQL `SELECT ... WHERE` chains become
`List.find?`/`List.filter`, in-place row updates become `List.map`, and each
endpoint handler becomes a function `Store → args → Store × Except ApiError α`
(returning the original store on every error path, matching the raise-before-mutate
structure of the code together with session rollback on close).

Dates travel as strings, exactly as in the code (`Column(String)` in
`models.py`); SQL comparisons on them are byte-wise lexicographic string
comparisons (`sqlLe`).  `datetime.strptime(s, "%Y-%m-%d")` is embedded by
`parseDate` following the CPython `_strptime` regexps (`%Y` = four digits,
`%m` = `1[0-2]|0[1-9]|[1-9]`, `%d` = `3[01]|[12]\x64|0[1-9]|[1-9]`, whole-string
match, then the day-of-month validity check of the `datetime` constructor).
Instants (`datetime` values) are modelled as a civil day number plus
seconds-of-day; `timedelta(days = n)` subtracts `n` from the day number and
`strftime("%Y-%m-%d")` formats the day number.  Currency amounts are only
stored, never computed with, so they are modelled as `Int`.
-/

deriving instance DecidableEq for Except

namespace Connelaide

/-- Currency amounts: stored and compared for nothing in the embedded
endpoints, so the float column is modelled as an integer. -/
abbrev Amount := Int

/-! ### Byte-wise string order (SQL comparison on date columns) -/

/-- Lexicographic comparison of character lists by code point. -/
def charListLe : List Char → List Char → Bool
  | [], _ => true
  | _ :: _, [] => false
  | a :: as, b :: bs =>
    if a.toNat < b.toNat then true
    else if b.toNat < a.toNat then false
    else charListLe as bs

/-- SQL `<=` on the string-typed date columns: byte-wise lexicographic. -/
def sqlLe (a b : String) : Bool :=
  charListLe a.data b.data

/-! ### Calendar arithmetic

Civil-calendar conversion between `(year, month, day)` triples and day
numbers (days since 0000-03-01), used to embed Python `datetime` values and
`timedelta` arithmetic. -/

def isLeap (y : Nat) : Bool :=
  y % 4 == 0 && (y % 100 != 0 || y % 400 == 0)

def daysInMonth (y m : Nat) : Nat :=
  if m = 2 then (if isLeap y then 29 else 28)
  else if m = 4 ∨ m = 6 ∨ m = 9 ∨ m = 11 then 30
  else 31

/-- Day number of civil date `(y, m, d)` (days since 0000-03-01),
for years ≥ 1. -/
def dateToDays (y m d : Nat) : Nat :=
  let y' := if m ≤ 2 then y - 1 else y
  let era := y' / 400
  let yoe := y' % 400
  let mp := if 2 < m then m - 3 else m + 9
  let doy := (153 * mp + 2) / 5 + d - 1
  let doe := yoe * 365 + yoe / 4 - yoe / 100 + doy
  era * 146097 + doe

/-- Civil date `(y, m, d)` of a day number. -/
def daysToDate (z : Nat) : Nat × Nat × Nat :=
  let era := z / 146097
  let doe := z % 146097
  let yoe := (doe - doe / 1460 + doe / 36524 - doe / 146096) / 365
  let y' := yoe + era * 400
  let doy := doe - (365 * yoe + yoe / 4 - yoe / 100)
  let mp := (5 * doy + 2) / 153
  let d := doy - (153 * mp + 2) / 5 + 1
  let m := if mp < 10 then mp + 3 else mp - 9
  let y := if m ≤ 2 then y' + 1 else y'
  (y, m, d)

/-- Zero-padded two-digit decimal rendering (`strftime` `%m`, `%d`). -/
def pad2 (n : Nat) : String :=
  String.mk [Nat.digitChar (n / 10 % 10), Nat.digitChar (n % 10)]

/-- Four-digit decimal rendering (`strftime` `%Y` for four-digit years). -/
def pad4 (n : Nat) : String :=
  String.mk [Nat.digitChar (n / 1000 % 10), Nat.digitChar (n / 100 % 10),
             Nat.digitChar (n / 10 % 10), Nat.digitChar (n % 10)]

/-- `strftime("%Y-%m-%d")` on a civil date triple. -/
def formatDate : Nat × Nat × Nat → String
  | (y, m, d) => pad4 y ++ "-" ++ pad2 m ++ "-" ++ pad2 d

/-- A timezone-aware Python `datetime`: civil day number plus
seconds within the day. -/
structure Instant where
  days : Nat
  secs : Nat
deriving Repr, DecidableEq

/-- The `datetime` at midnight UTC on civil date `(y, m, d)`. -/
def midnight (y m d : Nat) : Instant :=
  ⟨dateToDays y m d, 0⟩

/-- `instant.strftime("%Y-%m-%d")`. -/
def Instant.toDateString (t : Instant) : String :=
  formatDate (daysToDate t.days)

/-- `instant - timedelta(days = n)`. -/
def Instant.subDays (t : Instant) (n : Nat) : Instant :=
  ⟨t.days - n, t.secs⟩

/-! ### `datetime.strptime(s, "%Y-%m-%d")` -/

/-- Python `str.split("-")` on the character list of the string. -/
def splitDashes : List Char → List (List Char)
  | [] => [[]]
  | c :: cs =>
    if c = '-' then [] :: splitDashes cs
    else
      match splitDashes cs with
      | [] => [[c]]
      | p :: ps => (c :: p) :: ps

def allDigits (l : List Char) : Bool :=
  l.all (·.isDigit)

def natOfDigits (l : List Char) : Nat :=
  l.foldl (fun a c => a * 10 + (c.toNat - 48)) 0

/-- The CPython `%m`/`%d` field patterns allow one or two digits with an
optional leading zero for values below 10 (`1[0-2]|0[1-9]|[1-9]` resp.
`3[01]|[12][0-9]|0[1-9]|[1-9]`): a one- or two-digit all-digit component
whose value is nonzero. -/
def fieldOk (l : List Char) (lo hi : Nat) : Bool :=
  (l.length == 1 || l.length == 2) && allDigits l &&
    lo ≤ natOfDigits l && natOfDigits l ≤ hi

/-- `datetime.strptime(s, "%Y-%m-%d")`: `%Y` matches exactly four digits,
month and day match the CPython field patterns, the whole string must be
consumed, and the resulting triple must be a real calendar date
(the `datetime` constructor re-checks the day against the month length and
requires `MINYEAR = 1 ≤ year`).  Returns the parsed triple. -/
def parseDate (s : String) : Option (Nat × Nat × Nat) :=
  match splitDashes s.data with
  | [ys, ms, ds] =>
    if ys.length == 4 && allDigits ys && fieldOk ms 1 12 && fieldOk ds 1 31 then
      let y := natOfDigits ys
      let m := natOfDigits ms
      let d := natOfDigits ds
      if 1 ≤ y ∧ d ≤ daysInMonth y m then some (y, m, d) else none
    else none
  | _ => none

/-- Chronological order on parsed date triples (Python `datetime` order for
midnight values). -/
def dateTripleLe (a b : Nat × Nat × Nat) : Bool :=
  if a.1 ≠ b.1 then a.1 < b.1
  else if a.2.1 ≠ b.2.1 then a.2.1 < b.2.1
  else a.2.2 ≤ b.2.2

/-! ### Rows (`src/models.py`) -/

/-- `models.Transaction` (timestamps dropped: never read by the endpoints). -/
structure Transaction where
  id : Nat
  transaction_id : String
  account_name : String
  account_id : String
  date : String
  name : String
  amount : Amount
  pending : Bool
  merchant_name : Option String := none
  plaid_generated_category : Option String := none
  connelaide_category_id : Option Nat := none
  edited_amount : Option Amount := none
  note : Option String := none
  impacts_checking_balance : String := "review_required"
deriving Repr, DecidableEq

/-- `models.RefreshMetadata`. -/
structure RefreshMetadata where
  key : String
  last_refreshed_at : Instant
deriving Repr, DecidableEq

/-- `models.ConnalaideCategory`. -/
structure ConnalaideCategory where
  id : Nat
  name : String
  target_budget : Option Amount := none
deriving Repr, DecidableEq

/-- `models.ProjectedExpense`. -/
structure ProjectedExpense where
  id : Nat
  name : String
  amount : Amount
  date : String
  connelaide_category_id : Option Nat := none
  note : Option String := none
  is_struck_out : Bool := false
  merged_transaction_id : Option Nat := none
deriving Repr, DecidableEq

/-- `models.PayPeriod`. -/
structure PayPeriod where
  id : Nat
  start_date : String
  end_date : String
  checking_budget : Option Amount := none
deriving Repr, DecidableEq

/-- The database.  Serial primary keys are modelled by `next_*` counters
(PostgreSQL sequences start at 1). -/
structure Store where
  transactions : List Transaction := []
  refresh_metadata : List RefreshMetadata := []
  connalaide_categories : List ConnalaideCategory := []
  pay_periods : List PayPeriod := []
  projected_expenses : List ProjectedExpense := []
  next_category_id : Nat := 1
  next_pay_period_id : Nat := 1
  next_projected_expense_id : Nat := 1
deriving Repr, DecidableEq

/-! ### Errors (`fastapi.HTTPException` taxonomy raised by `src/main.py`) -/

inductive ApiError where
  /-- 404, raised when the addressed row does not exist. -/
  | notFound (what : String)
  /-- 400 `"Category with this name already exists"`. -/
  | duplicateName
  /-- 400 `"Invalid date format. Use YYYY-MM-DD"`. -/
  | invalidDateFormat
  /-- 400 `"End date must be >= start date"`. -/
  | invalidRange
  /-- 400 `"Date range overlaps with existing pay period (s to e)"`. -/
  | overlapConflict (s e : String)
  /-- 400 `"Category not found"` on a dangling `connelaide_category_id`. -/
  | invalidCategory
  /-- 400 `"Transaction not found"` on a dangling `merged_transaction_id`. -/
  | invalidTransaction
deriving Repr, DecidableEq

/-- The HTTP status code each error is raised with in `src/main.py`. -/
def ApiError.status_code : ApiError → Nat
  | .notFound _ => 404
  | _ => 400

/-! ### Sorting (SQL `ORDER BY`)

Insertion sort by a boolean comparison; used to embed the `order_by`
clauses.  (Stable; the claims only depend on membership.) -/

def insertBy {α : Type} (le : α → α → Bool) (a : α) : List α → List α
  | [] => [a]
  | b :: bs => if le a b then a :: b :: bs else b :: insertBy le a bs

def sortBy {α : Type} (le : α → α → Bool) : List α → List α
  | [] => []
  | a :: as => insertBy le a (sortBy le as)

/-! ### Category Registry (`src/main.py` lines 251-342) -/

/-- `schemas.ConnalaideCategoryCreate` (lines 61-69): `name` required,
`target_budget` optional. -/
structure ConnalaideCategoryCreate where
  name : String
  target_budget : Option Amount := none
deriving Repr, DecidableEq

/-- `schemas.ConnalaideCategoryUpdate` with `model_dump(exclude_unset=True)`:
the outer `Option` records whether the field is part of the change set, the
inner `Option` of `target_budget` is the (nullable) value.  (An explicit
`name: null` in the JSON body would make the handler write SQL `NULL` into a
`NOT NULL` column; that degenerate shape is not modelled.) -/
structure ConnalaideCategoryUpdate where
  name : Option String := none
  target_budget : Option (Option Amount) := none
deriving Repr, DecidableEq

/-- `GET /api/v1/connalaide-categories` (lines 251-258): all categories
ordered by name ascending. -/
def get_categories (s : Store) : List ConnalaideCategory :=
  sortBy (fun a b => sqlLe a.name b.name) s.connalaide_categories

/-- `POST /api/v1/connalaide-categories` (lines 274-290).  Note the created
row sets only `name`: `ConnalaideCategory(name=category_data.name)`,
so `target_budget` keeps its column default `NULL` whatever the request
carried. -/
def create_category (s : Store) (category_data : ConnalaideCategoryCreate) :
    Store × Except ApiError ConnalaideCategory :=
  match s.connalaide_categories.find? (fun c => c.name == category_data.name) with
  | some _ => (s, .error .duplicateName)
  | none =>
    let category : ConnalaideCategory := { id := s.next_category_id, name := category_data.name }
    ({ s with
        connalaide_categories := s.connalaide_categories ++ [category],
        next_category_id := s.next_category_id + 1 },
     .ok category)

/-- The `setattr` loop of `update_category` applied to one row. -/
def applyCategoryUpdate (upd : ConnalaideCategoryUpdate) (c : ConnalaideCategory) :
    ConnalaideCategory :=
  { c with
    name := upd.name.getD c.name
    target_budget := upd.target_budget.getD c.target_budget }

/-- `PATCH /api/v1/connalaide-categories/{id}` (lines 293-321). -/
def update_category (s : Store) (category_id : Nat) (upd : ConnalaideCategoryUpdate) :
    Store × Except ApiError ConnalaideCategory :=
  match s.connalaide_categories.find? (fun c => c.id == category_id) with
  | none => (s, .error (.notFound "Category not found"))
  | some category =>
    let dup : Bool :=
      match upd.name with
      | some newName =>
        (s.connalaide_categories.find?
          (fun c => c.name == newName && c.id != category_id)).isSome
      | none => false
    if dup then (s, .error .duplicateName)
    else
      ({ s with connalaide_categories := (s.connalaide_categories.map
          (fun c => if c.id == category_id then applyCategoryUpdate upd c else c)) },
       .ok (applyCategoryUpdate upd category))

/-- `DELETE /api/v1/connalaide-categories/{id}` (lines 324-342).  The handler
bulk-updates `Transaction.connelaide_category_id` to `NULL` for rows
referencing the category, then deletes the category row.  No statement in the
handler touches `ProjectedExpense.connelaide_category_id`. -/
def delete_category (s : Store) (category_id : Nat) : Store × Except ApiError Unit :=
  match s.connalaide_categories.find? (fun c => c.id == category_id) with
  | none => (s, .error (.notFound "Category not found"))
  | some _ =>
    let transactions' := s.transactions.map (fun t =>
      if t.connelaide_category_id == some category_id
      then { t with connelaide_category_id := none } else t)
    let categories' := s.connalaide_categories.filter (fun c => !(c.id == category_id))
    ({ s with transactions := transactions', connalaide_categories := categories' }, .ok ())

/-! ### Pay Period Manager (`src/main.py` lines 345-466) -/

/-- `schemas.PayPeriodCreate` (lines 140-149). -/
structure PayPeriodCreate where
  start_date : String
  end_date : String
  checking_budget : Option Amount := none
deriving Repr, DecidableEq

/-- `schemas.PayPeriodUpdate` with `model_dump(exclude_unset=True)`:
outer `Option` = membership in the change set.  (Explicit `null` dates would
crash `strptime` with an uncaught `TypeError`; not modelled.) -/
structure PayPeriodUpdate where
  start_date : Option String := none
  end_date : Option String := none
  checking_budget : Option (Option Amount) := none
deriving Repr, DecidableEq

/-- Strict chronological order on parsed date triples. -/
def dateTripleLt (a b : Nat × Nat × Nat) : Bool :=
  dateTripleLe a b && !(a == b)

/-- `validate_pay_period_dates` (lines 349-358): `strptime` both dates
(`ValueError` → 400 invalid format), then `if end < start` →
400 invalid range, comparing the parsed `datetime` values. -/
def validate_pay_period_dates (start_date end_date : String) : Except ApiError Unit :=
  match parseDate start_date, parseDate end_date with
  | some s, some e =>
    if dateTripleLt e s then .error .invalidRange else .ok ()
  | _, _ => .error .invalidDateFormat

/-- The SQL filter of `check_pay_period_overlap` on one row:
`PayPeriod.start_date <= end_date AND PayPeriod.end_date >= start_date`
(string comparison on the `String(10)` columns), plus
`PayPeriod.id != exclude_id` — applied only under the Python truthiness test
`if exclude_id:`, i.e. skipped when `exclude_id` is `None` **or** `0`. -/
def overlapPred (start_date end_date : String) (exclude_id : Option Nat)
    (p : PayPeriod) : Bool :=
  sqlLe p.start_date end_date && sqlLe start_date p.end_date &&
    (match exclude_id with
     | some e => if e == 0 then true else p.id != e
     | none => true)

/-- `check_pay_period_overlap` (lines 361-375): first overlapping row, if
any, aborts with 400 naming its range. -/
def check_pay_period_overlap (periods : List PayPeriod)
    (start_date end_date : String) (exclude_id : Option Nat) : Except ApiError Unit :=
  match periods.find? (overlapPred start_date end_date exclude_id) with
  | some overlapping => .error (.overlapConflict overlapping.start_date overlapping.end_date)
  | none => .ok ()

/-- `GET /api/v1/pay-periods` (lines 378-385): ordered by start_date
descending. -/
def get_pay_periods (s : Store) : List PayPeriod :=
  sortBy (fun a b => sqlLe b.start_date a.start_date) s.pay_periods

/-- `POST /api/v1/pay-periods` (lines 401-419): validate, check overlap,
insert. -/
def create_pay_period (s : Store) (pay_period_data : PayPeriodCreate) :
    Store × Except ApiError PayPeriod :=
  match validate_pay_period_dates pay_period_data.start_date pay_period_data.end_date with
  | .error e => (s, .error e)
  | .ok () =>
    match check_pay_period_overlap s.pay_periods
        pay_period_data.start_date pay_period_data.end_date none with
    | .error e => (s, .error e)
    | .ok () =>
      let pay_period : PayPeriod :=
        { id := s.next_pay_period_id
          start_date := pay_period_data.start_date
          end_date := pay_period_data.end_date
          checking_budget := pay_period_data.checking_budget }
      ({ s with
          pay_periods := s.pay_periods ++ [pay_period],
          next_pay_period_id := s.next_pay_period_id + 1 },
       .ok pay_period)

/-- The `setattr` loop of `update_pay_period` applied to one row. -/
def applyPayPeriodUpdate (upd : PayPeriodUpdate) (p : PayPeriod) : PayPeriod :=
  { p with
    start_date := upd.start_date.getD p.start_date
    end_date := upd.end_date.getD p.end_date
    checking_budget := upd.checking_budget.getD p.checking_budget }

/-- `PATCH /api/v1/pay-periods/{id}` (lines 422-450): 404 if absent; dates
are re-validated and the overlap re-checked (excluding this row) only when
`start_date` or `end_date` is in the change set; then the fields are
applied. -/
def update_pay_period (s : Store) (pay_period_id : Nat) (upd : PayPeriodUpdate) :
    Store × Except ApiError PayPeriod :=
  match s.pay_periods.find? (fun p => p.id == pay_period_id) with
  | none => (s, .error (.notFound "Pay period not found"))
  | some pay_period =>
    let new_start := upd.start_date.getD pay_period.start_date
    let new_end := upd.end_date.getD pay_period.end_date
    let checks : Except ApiError Unit :=
      if upd.start_date.isSome || upd.end_date.isSome then
        match validate_pay_period_dates new_start new_end with
        | .error e => .error e
        | .ok () =>
          check_pay_period_overlap s.pay_periods new_start new_end (some pay_period_id)
      else .ok ()
    match checks with
    | .error e => (s, .error e)
    | .ok () =>
      ({ s with pay_periods := (s.pay_periods.map
          (fun p => if p.id == pay_period_id then applyPayPeriodUpdate upd p else p)) },
       .ok (applyPayPeriodUpdate upd pay_period))

/-- `DELETE /api/v1/pay-periods/{id}` (lines 453-466). -/
def delete_pay_period (s : Store) (pay_period_id : Nat) : Store × Except ApiError Unit :=
  match s.pay_periods.find? (fun p => p.id == pay_period_id) with
  | none => (s, .error (.notFound "Pay period not found"))
  | some _ =>
    ({ s with pay_periods := s.pay_periods.filter (fun p => !(p.id == pay_period_id)) },
     .ok ())

/-! ### Projected Expense Ledger (`src/main.py` lines 473-492) -/

/-- `GET /api/v1/projected-expenses` (lines 473-492): rows with
`date` in `[start_date, end_date]` **and** `merged_transaction_id IS NULL`,
ordered by date descending.  The handler takes no `includeMerged` (or any
other) flag: the `merged_transaction_id == None` filter is unconditional. -/
def get_projected_expenses (s : Store) (start_date end_date : String) :
    List ProjectedExpense :=
  sortBy (fun a b => sqlLe b.date a.date)
    (s.projected_expenses.filter (fun e =>
      sqlLe start_date e.date && sqlLe e.date end_date &&
        e.merged_transaction_id == none))

/-! ### Refresh Coordinator (`src/main.py` lines 112-207) -/

/-- Outcome of the boto3 Lambda invocation plus response parsing (lines
151-182): `invokeError` is any exception raised while creating the client,
invoking, or JSON-parsing (all caught by the `except` at line 203);
`functionError` is a response with `FunctionError` set (line 171), carrying
the optional `errorMessage` of the payload; `success n` is a normal response whose
payload (directly or through the API-Gateway `body` wrapping of lines
177-182) yields `transactions_count = n`. -/
inductive LambdaOutcome where
  | invokeError (msg : String)
  | functionError (errorMessage : Option String)
  | success (transactions_count : Nat)
deriving Repr, DecidableEq

/-- `schemas.RefreshResponse`. -/
structure RefreshResponse where
  success : Bool
  message : String
  transactions_fetched : Option Nat := none
  last_refreshed_at : Option Instant := none
deriving Repr, DecidableEq

/-- Lines 133-148 of `refresh_transactions`: the fetch window handed to the
Lambda.  With a previous refresh recorded, start = `last_refreshed_at`
minus 14 days; otherwise start = `now` minus 30 days; end = `now`; both
rendered with `strftime("%Y-%m-%d")`. -/
def computeRefreshWindow (metadata : Option RefreshMetadata) (now : Instant) :
    String × String :=
  let start_date :=
    match metadata with
    | some m => (m.last_refreshed_at.subDays 14).toDateString
    | none => (now.subDays 30).toDateString
  (start_date, now.toDateString)

/-- `POST /api/v1/transactions/refresh` (lines 127-207).  The Lambda is a
black box mapping the `{start_date, end_date}` payload to an outcome.  On
`invokeError` and `functionError` the handler returns before touching
`RefreshMetadata`; only on success does it set `last_refreshed_at = now`
(creating the row if absent) and commit. -/
def refresh_transactions (s : Store) (now : Instant)
    (lambdaFetch : String × String → LambdaOutcome) : Store × RefreshResponse :=
  let metadata := s.refresh_metadata.find? (fun m => m.key == "plaid_transactions")
  match lambdaFetch (computeRefreshWindow metadata now) with
  | .invokeError msg =>
    (s, { success := false, message := "Failed to refresh transactions: " ++ msg })
  | .functionError errorMessage =>
    (s, { success := false,
          message := "Lambda error: " ++ errorMessage.getD "Unknown error" })
  | .success transactions_count =>
    let refresh_metadata' :=
      match metadata with
      | some _ => s.refresh_metadata.map (fun m =>
          if m.key == "plaid_transactions" then { m with last_refreshed_at := now } else m)
      | none => s.refresh_metadata ++ [{ key := "plaid_transactions", last_refreshed_at := now }]
    ({ s with refresh_metadata := refresh_metadata' },
     { success := true, message := "Successfully refreshed transactions",
       transactions_fetched := some transactions_count,
       last_refreshed_at := some now })

/-! ### Recurring Expense schema (`src/schemas.py` lines 175-187) -/

/-- `schemas.RecurringExpenseBase` / `RecurringExpenseCreate`.  The class
declares only typed fields; the inline comments in the source document
intended constraints (frequency monthly or yearly, day_of_month 1-31,
month_of_year 1-12 and required exactly for yearly frequency) but no pydantic
validator, `Field` bound, or model validator exists anywhere in the file, so
pydantic enforces presence and types only.  A well-typed record therefore
already captures everything the schema checks.  (`src/models.py` defines no
`RecurringExpense` table — `init_db.py` imports one that does not exist — and
`src/main.py` has no recurring-expense endpoint.) -/
structure RecurringExpenseCreate where
  name : String
  amount : Amount
  frequency : String
  day_of_month : Int
  month_of_year : Option Int := none
  start_date : String
  end_date : Option String := none
  connelaide_category_id : Option Nat := none
  note : Option String := none
deriving Repr, DecidableEq

/-- The validation `RecurringExpenseCreate` performs beyond field presence
and types: none.  Every well-typed request body is accepted. -/
def validateRecurringExpenseCreate (r : RecurringExpenseCreate) :
    Except ApiError RecurringExpenseCreate := .ok r

/-- Modelled from the spec (§4.4): the validation the spec prescribes for a
recurring-expense create/update request — `frequency ∈ {monthly, yearly}`,
`day_of_month ∈ [1,31]`, `month_of_year` present and in `[1,12]` exactly when
`frequency = yearly`. -/
def specRecurringExpenseValid (r : RecurringExpenseCreate) : Bool :=
  (r.frequency == "monthly" || r.frequency == "yearly") &&
  (decide (1 ≤ r.day_of_month) && decide (r.day_of_month ≤ 31)) &&
  (if r.frequency == "yearly" then
    match r.month_of_year with
    | some m => decide (1 ≤ m) && decide (m ≤ 12)
    | none => false
   else r.month_of_year == none)

/-! ## Helper lemmas -/

theorem mem_insertBy {α : Type} (le : α → α → Bool) (x a : α) (l : List α) :
    a ∈ insertBy le x l ↔ a = x ∨ a ∈ l := by
  induction l with
  | nil => simp [insertBy]
  | cons b bs ih =>
    simp only [insertBy]
    split
    · simp [List.mem_cons]
    · simp only [List.mem_cons, ih]
      tauto

theorem mem_sortBy {α : Type} (le : α → α → Bool) (a : α) (l : List α) :
    a ∈ sortBy le l ↔ a ∈ l := by
  induction l with
  | nil => simp [sortBy]
  | cons b bs ih => simp [sortBy, mem_insertBy, ih]

/-! ## Claims -/

/-- C2 (amended): a stored ProjectedExpense appears in the result of the
date-range listing exactly when its date lies inside the inclusive range and
its `merged_transaction_id` is null.  In particular every merged expense is
excluded; the handler accepts no `includeMerged` flag, so no call can
include one. -/
theorem projected_expenses_listing_characterization (s : Store)
    (start_date end_date : String) (e : ProjectedExpense) :
    e ∈ get_projected_expenses s start_date end_date ↔
      e ∈ s.projected_expenses ∧ sqlLe start_date e.date = true ∧
        sqlLe e.date end_date = true ∧ e.merged_transaction_id = none := by
  simp [get_projected_expenses, mem_sortBy, List.mem_filter, and_assoc]

/-- A projected expense already reconciled against transaction 42. -/
def mergedRealizedExpense : ProjectedExpense :=
  { id := 1, name := "Rent", amount := 1500, date := "2024-06-01",
    merged_transaction_id := some 42 }

def storeWithMergedExpense : Store :=
  { projected_expenses := [mergedRealizedExpense] }

/-- C2 counterexample: a stored projected expense with non-null
`merged_transaction_id` and date inside the queried range is returned by no
invocation of the listing operation — `get_projected_expenses` takes no
`includeMerged` parameter and filters merged rows out unconditionally, so
the half of the claim asserting inclusion under `includeMerged = true` is
false of the code. -/
theorem projected_expenses_merged_never_included :
    mergedRealizedExpense ∈ storeWithMergedExpense.projected_expenses ∧
    mergedRealizedExpense.merged_transaction_id = some 42 ∧
    sqlLe "2024-01-01" mergedRealizedExpense.date = true ∧
    sqlLe mergedRealizedExpense.date "2024-12-31" = true ∧
    get_projected_expenses storeWithMergedExpense "2024-01-01" "2024-12-31" = [] := by
  decide

/-- The store after creating a pay period with non-zero-padded dates. -/
def storeWithRaggedPeriod : Store :=
  (create_pay_period {} ⟨"2024-1-5", "2024-1-9", none⟩).1

/-- C10: the date string "2024-1-5" is not in canonical zero-padded
YYYY-MM-DD form, yet `strptime`-based validation accepts it (as January 5,
2024) and the create handler stores it verbatim; the overlap check then
compares it with other stored dates as a raw string, an order that
disagrees with chronological order — so a second period lying
chronologically inside the first is admitted. -/
theorem pay_period_dates_not_canonicalized :
    (create_pay_period {} ⟨"2024-1-5", "2024-1-9", none⟩).2 =
      .ok ⟨1, "2024-1-5", "2024-1-9", none⟩ ∧
    storeWithRaggedPeriod.pay_periods = [⟨1, "2024-1-5", "2024-1-9", none⟩] ∧
    parseDate "2024-1-5" = some (2024, 1, 5) ∧
    formatDate (2024, 1, 5) = "2024-01-05" ∧
    "2024-01-05" ≠ "2024-1-5" ∧
    sqlLe "2024-1-5" "2024-01-07" = false ∧
    dateTripleLe (2024, 1, 5) (2024, 1, 7) = true ∧
    (create_pay_period storeWithRaggedPeriod ⟨"2024-01-06", "2024-01-07", none⟩).2 =
      .ok ⟨2, "2024-01-06", "2024-01-07", none⟩ := by
  decide

/-- A recurring-expense create request violating every constraint of spec
§4.4: frequency neither monthly nor yearly, day_of_month outside [1,31]. -/
def badFrequencyExpense : RecurringExpenseCreate :=
  { name := "Gym", amount := 50, frequency := "weekly", day_of_month := 99,
    start_date := "2024-01-01" }

/-- A yearly recurring-expense create request with `month_of_year` absent. -/
def yearlyNoMonthExpense : RecurringExpenseCreate :=
  { name := "Insurance", amount := 900, frequency := "yearly", day_of_month := 15,
    month_of_year := none, start_date := "2024-01-01" }

/-- C4 (code bug): the RecurringExpense request schema accepts a frequency
outside monthly/yearly, a day_of_month outside [1,31], and a yearly request
with no month_of_year — the constraints documented in the inline comments of
`schemas.py` (and prescribed by the spec, `specRecurringExpenseValid`) are
enforced nowhere. -/
theorem recurring_expense_constraints_unenforced :
    validateRecurringExpenseCreate badFrequencyExpense = .ok badFrequencyExpense ∧
    badFrequencyExpense.frequency ≠ "monthly" ∧
    badFrequencyExpense.frequency ≠ "yearly" ∧
    ¬(1 ≤ badFrequencyExpense.day_of_month ∧ badFrequencyExpense.day_of_month ≤ 31) ∧
    specRecurringExpenseValid badFrequencyExpense = false ∧
    validateRecurringExpenseCreate yearlyNoMonthExpense = .ok yearlyNoMonthExpense ∧
    yearlyNoMonthExpense.frequency = "yearly" ∧
    yearlyNoMonthExpense.month_of_year = none ∧
    specRecurringExpenseValid yearlyNoMonthExpense = false := by
  decide

/-- A category referenced by one transaction and one projected expense. -/
def referencedCategory : ConnalaideCategory := { id := 1, name := "Food" }

def txnUsingFood : Transaction :=
  { id := 1, transaction_id := "plaid-1", account_name := "Checking",
    account_id := "acc-1", date := "2024-05-01", name := "Grocer", amount := -20,
    pending := false, connelaide_category_id := some 1 }

def expenseUsingFood : ProjectedExpense :=
  { id := 1, name := "Groceries", amount := 80, date := "2024-06-01",
    connelaide_category_id := some 1 }

def storeBeforeCategoryDelete : Store :=
  { connalaide_categories := [referencedCategory],
    transactions := [txnUsingFood],
    projected_expenses := [expenseUsingFood],
    next_category_id := 2 }

/-- C1 (code bug): deleting a category nulls the reference on every
Transaction and removes the category from the listing, but leaves
`connelaide_category_id` on a ProjectedExpense untouched — the handler never
updates the projected_expenses table, so the deleted id dangles there. -/
theorem delete_category_dangling_projected_expense :
    (delete_category storeBeforeCategoryDelete 1).2 = .ok () ∧
    ((delete_category storeBeforeCategoryDelete 1).1.transactions.map
      (fun t => t.connelaide_category_id)) = [none] ∧
    get_categories (delete_category storeBeforeCategoryDelete 1).1 = [] ∧
    ((delete_category storeBeforeCategoryDelete 1).1.projected_expenses.map
      (fun e => e.connelaide_category_id)) = [some 1] := by
  decide

/-- C7: a category-create request whose name byte-for-byte equals an already
created one fails with DuplicateName and leaves the store unchanged, while
two requests whose names differ as byte strings (in particular, differ only
in letter case) both succeed — the uniqueness check is exact string
equality. -/
theorem create_category_exact_duplicate (s : Store) (r1 r2 : ConnalaideCategoryCreate) :
    (∀ s' c, create_category s r1 = (s', .ok c) → r2.name = r1.name →
      create_category s' r2 = (s', .error .duplicateName)) ∧
    (r1.name ≠ r2.name →
      (∀ c ∈ s.connalaide_categories, c.name ≠ r1.name) →
      (∀ c ∈ s.connalaide_categories, c.name ≠ r2.name) →
      ∃ s1 c1 s2 c2, create_category s r1 = (s1, .ok c1) ∧
        create_category s1 r2 = (s2, .ok c2)) := by
  constructor
  · intro s' c h hname
    rcases hfind : s.connalaide_categories.find? (fun cc => cc.name == r1.name) with _ | cfound
    · simp only [create_category, hfind] at h
      obtain ⟨hs', hc⟩ := Prod.mk.injEq .. ▸ h
      simp only [Except.ok.injEq] at hc
      subst hs' hc
      simp only [create_category, hname, List.find?_append, hfind, Option.none_or]
      simp [List.find?]
    · simp [create_category, hfind] at h
  · intro hne h1 h2
    have hf1 : s.connalaide_categories.find? (fun cc => cc.name == r1.name) = none :=
      List.find?_eq_none.mpr (fun c hc => by simp [h1 c hc])
    have hf2 : s.connalaide_categories.find? (fun cc => cc.name == r2.name) = none :=
      List.find?_eq_none.mpr (fun c hc => by simp [h2 c hc])
    have e1 : create_category s r1 =
        ({ s with
            connalaide_categories :=
              s.connalaide_categories ++ [⟨s.next_category_id, r1.name, none⟩],
            next_category_id := s.next_category_id + 1 },
         .ok ⟨s.next_category_id, r1.name, none⟩) := by
      simp only [create_category, hf1]
    have hf2' : (s.connalaide_categories ++
        [(⟨s.next_category_id, r1.name, none⟩ : ConnalaideCategory)]).find?
          (fun cc => cc.name == r2.name) = none := by
      rw [List.find?_append, hf2, Option.none_or]
      have hz : ((⟨s.next_category_id, r1.name, none⟩ : ConnalaideCategory).name ==
          r2.name) = false := by simp [hne]
      simp only [List.find?_cons, hz, List.find?_nil]
    have e2 : create_category
        { s with
            connalaide_categories :=
              s.connalaide_categories ++ [⟨s.next_category_id, r1.name, none⟩],
            next_category_id := s.next_category_id + 1 } r2 =
        ({ s with
            connalaide_categories :=
              s.connalaide_categories ++ [⟨s.next_category_id, r1.name, none⟩] ++
                [⟨s.next_category_id + 1, r2.name, none⟩],
            next_category_id := s.next_category_id + 2 },
         .ok ⟨s.next_category_id + 1, r2.name, none⟩) := by
      simp only [create_category, hf2']
    exact ⟨_, _, _, _, e1, e2⟩

/-- The store holding exactly one category named Food. -/
def foodStore : Store := (create_category {} ⟨"Food", none⟩).1

/-- C7 witness: on a store already holding Food, creating Food again fails
with DuplicateName leaving the store unchanged, while Food then food (same
letters, different case) both succeed. -/
theorem create_category_exact_duplicate_inst :
    create_category foodStore ⟨"Food", some 250⟩ = (foodStore, .error .duplicateName) ∧
    (∃ s1 c1 s2 c2, create_category {} ⟨"Food", none⟩ = (s1, .ok c1) ∧
      create_category s1 ⟨"food", none⟩ = (s2, .ok c2)) :=
  ⟨(create_category_exact_duplicate {} ⟨"Food", none⟩ ⟨"Food", some 250⟩).1
      foodStore ⟨1, "Food", none⟩ (by decide) rfl,
   (create_category_exact_duplicate {} ⟨"Food", none⟩ ⟨"food", none⟩).2
      (by decide) (by simp) (by simp)⟩

/-- C9: however a create request sets target_budget, the created category is
stored with target_budget null — create persists only the name — and the
budget can afterwards be set through the update operation. -/
theorem create_category_discards_target_budget (s : Store)
    (r : ConnalaideCategoryCreate) (s' : Store) (c : ConnalaideCategory)
    (hid : ∀ c0 ∈ s.connalaide_categories, c0.id ≠ s.next_category_id)
    (h : create_category s r = (s', .ok c)) :
    c = ⟨s.next_category_id, r.name, none⟩ ∧
    s'.connalaide_categories = s.connalaide_categories ++ [c] ∧
    (∀ b : Amount,
      (update_category s' c.id ⟨none, some (some b)⟩).2 = .ok ⟨c.id, c.name, some b⟩) := by
  rcases hfind : s.connalaide_categories.find? (fun cc => cc.name == r.name) with _ | cfound
  · simp only [create_category, hfind] at h
    obtain ⟨hs', hc⟩ := Prod.mk.injEq .. ▸ h
    simp only [Except.ok.injEq] at hc
    subst hs' hc
    refine ⟨rfl, rfl, fun b => ?_⟩
    have hfid : s.connalaide_categories.find?
        (fun cc => cc.id == s.next_category_id) = none :=
      List.find?_eq_none.mpr (fun c0 hc0 => by simp [hid c0 hc0])
    simp only [update_category, List.find?_append, hfid, Option.none_or]
    simp [List.find?, applyCategoryUpdate]
  · simp [create_category, hfind] at h

/-- The store after creating Food with a (discarded) target budget. -/
def foodBudgetStore : Store := (create_category {} ⟨"Food", some 250⟩).1

/-- C9 witness: creating Food with target budget 250 stores a null budget,
and a follow-up update sets the budget to 250. -/
theorem create_category_discards_target_budget_inst :
    (⟨1, "Food", none⟩ : ConnalaideCategory) = ⟨1, "Food", none⟩ ∧
    foodBudgetStore.connalaide_categories = [⟨1, "Food", none⟩] ∧
    (∀ b : Amount, (update_category foodBudgetStore 1 ⟨none, some (some b)⟩).2 =
      .ok ⟨1, "Food", some b⟩) := by
  have h := create_category_discards_target_budget {} ⟨"Food", some 250⟩
    foodBudgetStore ⟨1, "Food", none⟩ (by simp) (by decide)
  exact ⟨rfl, h.2.1, h.2.2⟩

/-- After the row update of a successful refresh, the plaid_transactions row
reads back with last_refreshed_at = now. -/
theorem find?_plaid_after_update (l : List RefreshMetadata) (now : Instant)
    (h : (l.find? (fun m => m.key == "plaid_transactions")).isSome = true) :
    (l.map (fun m => if m.key == "plaid_transactions"
        then { m with last_refreshed_at := now } else m)).find?
      (fun m => m.key == "plaid_transactions") = some ⟨"plaid_transactions", now⟩ := by
  induction l with
  | nil => simp [List.find?] at h
  | cons a t ih =>
    by_cases ha : a.key = "plaid_transactions"
    · have hmap : ((if (a.key == "plaid_transactions") = true
          then { key := a.key, last_refreshed_at := now } else a) : RefreshMetadata) =
          { key := a.key, last_refreshed_at := now } := by simp [ha]
      have hz : (({ key := a.key, last_refreshed_at := now } : RefreshMetadata).key ==
          "plaid_transactions") = true := by simp [ha]
      simp only [List.map_cons, hmap, List.find?_cons, hz]
      simp [ha]
    · have hz : (a.key == "plaid_transactions") = false := by simp [ha]
      have hmap : ((if (a.key == "plaid_transactions") = true
          then { key := a.key, last_refreshed_at := now } else a) : RefreshMetadata) = a := by
        simp [ha]
      simp only [List.find?_cons, hz] at h
      rw [List.map_cons, hmap]
      simp only [List.find?_cons, hz]
      exact ih h

/-- After inserting the first plaid_transactions row, it reads back. -/
theorem find?_plaid_after_insert (l : List RefreshMetadata) (now : Instant)
    (h : l.find? (fun m => m.key == "plaid_transactions") = none) :
    (l ++ [({ key := "plaid_transactions", last_refreshed_at := now } : RefreshMetadata)]).find?
      (fun m => m.key == "plaid_transactions") =
      some { key := "plaid_transactions", last_refreshed_at := now } := by
  rw [List.find?_append, h, Option.none_or, List.find?_cons_of_pos _ (by simp)]

/-- C6: when the Lambda invocation raises or reports FunctionError, the
refresh handler returns a failure response and the store — in particular
every RefreshMetadata row — is exactly as before (no row created if none
existed); on a successful response it sets last_refreshed_at = now, creating
the plaid_transactions row on first success. -/
theorem refresh_metadata_update_gating (s : Store) (now : Instant)
    (lambdaFetch : String × String → LambdaOutcome) :
    (∀ msg, lambdaFetch (computeRefreshWindow
        (s.refresh_metadata.find? (fun m => m.key == "plaid_transactions")) now) =
          .invokeError msg →
      refresh_transactions s now lambdaFetch =
        (s, { success := false, message := "Failed to refresh transactions: " ++ msg })) ∧
    (∀ em, lambdaFetch (computeRefreshWindow
        (s.refresh_metadata.find? (fun m => m.key == "plaid_transactions")) now) =
          .functionError em →
      refresh_transactions s now lambdaFetch =
        (s, { success := false,
              message := "Lambda error: " ++ em.getD "Unknown error" })) ∧
    (∀ n, lambdaFetch (computeRefreshWindow
        (s.refresh_metadata.find? (fun m => m.key == "plaid_transactions")) now) =
          .success n →
      ((refresh_transactions s now lambdaFetch).1.refresh_metadata.find?
          (fun m => m.key == "plaid_transactions")) = some ⟨"plaid_transactions", now⟩ ∧
      (refresh_transactions s now lambdaFetch).2 =
        { success := true, message := "Successfully refreshed transactions",
          transactions_fetched := some n, last_refreshed_at := some now }) := by
  refine ⟨fun msg h => ?_, fun em h => ?_, fun n h => ?_⟩
  · simp only [refresh_transactions, h]
  · simp only [refresh_transactions, h]
  · rcases hfind : s.refresh_metadata.find? (fun m => m.key == "plaid_transactions")
      with _ | mfound
    · rw [hfind] at h
      simp only [refresh_transactions, hfind, h]
      exact ⟨find?_plaid_after_insert _ _ hfind, trivial⟩
    · rw [hfind] at h
      simp only [refresh_transactions, hfind, h]
      exact ⟨find?_plaid_after_update _ _ (by rw [hfind]; rfl), trivial⟩

/-- A store whose plaid_transactions row was last refreshed 2024-03-10. -/
def staleRefreshStore : Store :=
  { refresh_metadata := [⟨"plaid_transactions", midnight 2024 3 10⟩] }

/-- C6 witness: on a store with one stale row, an invocation error and a
FunctionError leave the store untouched, and a success rewrites the row to
now. -/
theorem refresh_metadata_update_gating_inst :
    refresh_transactions staleRefreshStore (midnight 2024 3 20)
        (fun _ => .invokeError "boom") =
      (staleRefreshStore,
        { success := false, message := "Failed to refresh transactions: " ++ "boom" }) ∧
    refresh_transactions staleRefreshStore (midnight 2024 3 20)
        (fun _ => .functionError none) =
      (staleRefreshStore,
        { success := false, message := "Lambda error: " ++ "Unknown error" }) ∧
    ((refresh_transactions staleRefreshStore (midnight 2024 3 20)
        (fun _ => .success 3)).1.refresh_metadata.find?
          (fun m => m.key == "plaid_transactions")) =
      some ⟨"plaid_transactions", midnight 2024 3 20⟩ :=
  ⟨(refresh_metadata_update_gating staleRefreshStore (midnight 2024 3 20)
      (fun _ => .invokeError "boom")).1 "boom" rfl,
   (refresh_metadata_update_gating staleRefreshStore (midnight 2024 3 20)
      (fun _ => .functionError none)).2.1 none rfl,
   ((refresh_metadata_update_gating staleRefreshStore (midnight 2024 3 20)
      (fun _ => .success 3)).2.2 3 rfl).1⟩

/-- C5 (amended): the computed window ends at now and starts exactly 14
civil days before the last refresh instant — 30 days before now when no
refresh is recorded.  For last_refreshed_at = 2024-03-10T00:00:00Z and
now = 2024-03-20T00:00:00Z the window is 2024-02-25 to 2024-03-20 (2024 is
a leap year, so going 14 days back from March 10 lands on February 25, not
the February 24 the spec example states); with no prior refresh it is
2024-02-19 to 2024-03-20. -/
theorem compute_next_window_correct :
    (∀ (m : RefreshMetadata) (now : Instant) (y mo d z : Nat),
      z + 14 = m.last_refreshed_at.days → daysToDate z = (y, mo, d) →
      computeRefreshWindow (some m) now = (formatDate (y, mo, d), now.toDateString)) ∧
    (∀ (now : Instant) (y mo d z : Nat),
      z + 30 = now.days → daysToDate z = (y, mo, d) →
      computeRefreshWindow none now = (formatDate (y, mo, d), now.toDateString)) ∧
    computeRefreshWindow (some ⟨"plaid_transactions", midnight 2024 3 10⟩)
      (midnight 2024 3 20) = ("2024-02-25", "2024-03-20") ∧
    computeRefreshWindow none (midnight 2024 3 20) = ("2024-02-19", "2024-03-20") := by
  refine ⟨fun m now y mo d z hz hd => ?_, fun now y mo d z hz hd => ?_,
    by decide, by decide⟩
  · have hsub : m.last_refreshed_at.days - 14 = z := by omega
    simp [computeRefreshWindow, Instant.subDays, Instant.toDateString, hsub, hd]
  · have hsub : now.days - 30 = z := by omega
    simp [computeRefreshWindow, Instant.subDays, Instant.toDateString, hsub, hd]

/-- C5 witness: the general window rule applied at the concrete instants of
the spec example. -/
theorem compute_next_window_correct_inst :
    computeRefreshWindow (some ⟨"plaid_transactions", midnight 2024 3 10⟩)
        (midnight 2024 3 20) =
      (formatDate (2024, 2, 25), (midnight 2024 3 20).toDateString) ∧
    computeRefreshWindow none (midnight 2024 3 20) =
      (formatDate (2024, 2, 19), (midnight 2024 3 20).toDateString) :=
  ⟨compute_next_window_correct.1 ⟨"plaid_transactions", midnight 2024 3 10⟩
      (midnight 2024 3 20) 2024 2 25 (dateToDays 2024 2 25) (by decide) (by decide),
   compute_next_window_correct.2.1 (midnight 2024 3 20) 2024 2 19
      (dateToDays 2024 2 19) (by decide) (by decide)⟩

/-- C5 counterexample: with last_refreshed_at = 2024-03-10T00:00:00Z and
now = 2024-03-20T00:00:00Z the computed window does not start 2024-02-24 as
the claim instance states — it starts 2024-02-25. -/
theorem compute_next_window_spec_example_false :
    computeRefreshWindow (some ⟨"plaid_transactions", midnight 2024 3 10⟩)
        (midnight 2024 3 20) ≠ ("2024-02-24", "2024-03-20") := by
  decide

/-- The no-overlap invariant on stored pay periods, with the same inclusive
string comparison the overlap check issues to the database. -/
def payPeriodsDisjoint (l : List PayPeriod) : Prop :=
  l.Pairwise (fun A B =>
    ¬(sqlLe A.start_date B.end_date = true ∧ sqlLe B.start_date A.end_date = true))

/-- If the overlap check passes, no stored period satisfies its filter. -/
theorem check_overlap_ok (periods : List PayPeriod) (sd ed : String)
    (ex : Option Nat) (h : check_pay_period_overlap periods sd ed ex = .ok ()) :
    ∀ p ∈ periods, overlapPred sd ed ex p = false := by
  intro p hp
  rcases hf : periods.find? (overlapPred sd ed ex) with _ | q
  · simpa using List.find?_eq_none.mp hf p hp
  · exfalso
    unfold check_pay_period_overlap at h
    rw [hf] at h
    exact Except.noConfusion h

/-- If some stored period satisfies the filter, the overlap check aborts
with an OverlapConflict naming a conflicting range. -/
theorem check_overlap_conflict (periods : List PayPeriod) (sd ed : String)
    (ex : Option Nat) (h : ∃ p ∈ periods, overlapPred sd ed ex p = true) :
    ∃ cs ce, check_pay_period_overlap periods sd ed ex =
      .error (.overlapConflict cs ce) := by
  have hs : (periods.find? (overlapPred sd ed ex)).isSome := List.find?_isSome.mpr h
  rcases hf : periods.find? (overlapPred sd ed ex) with _ | q
  · rw [hf] at hs; simp at hs
  · exact ⟨q.start_date, q.end_date, by unfold check_pay_period_overlap; rw [hf]⟩

/-- A date-only view of a pay-period list is unchanged by an update whose
change set has no date field. -/
theorem map_dates_no_date_update (l : List PayPeriod) (upd : PayPeriodUpdate)
    (i : Nat) (hs : upd.start_date = none) (he : upd.end_date = none) :
    (l.map (fun q => if q.id == i then applyPayPeriodUpdate upd q else q)).map
        (fun q => (q.start_date, q.end_date)) =
      l.map (fun q => (q.start_date, q.end_date)) := by
  induction l with
  | nil => rfl
  | cons a t ih =>
    simp only [List.map_cons, ih]
    by_cases hai : (a.id == i) = true <;>
      simp [hai, applyPayPeriodUpdate, hs, he]

/-- C3: every pay-period operation preserves pairwise non-overlap of the
stored inclusive ranges, and a create or date-changing update whose range
intersects a (different) stored period — boundary touching included — fails
with OverlapConflict and leaves the store unchanged. -/
theorem pay_period_no_overlap_invariant (s : Store)
    (hids : s.pay_periods.Pairwise (fun A B => A.id ≠ B.id))
    (hinv : payPeriodsDisjoint s.pay_periods) :
    (∀ d : PayPeriodCreate, payPeriodsDisjoint (create_pay_period s d).1.pay_periods) ∧
    (∀ d : PayPeriodCreate,
      validate_pay_period_dates d.start_date d.end_date = .ok () →
      (∃ p ∈ s.pay_periods, sqlLe p.start_date d.end_date = true ∧
        sqlLe d.start_date p.end_date = true) →
      ∃ cs ce, create_pay_period s d = (s, .error (.overlapConflict cs ce))) ∧
    (∀ i upd, payPeriodsDisjoint (update_pay_period s i upd).1.pay_periods) ∧
    (∀ i upd p, s.pay_periods.find? (fun q => q.id == i) = some p →
      (upd.start_date.isSome = true ∨ upd.end_date.isSome = true) →
      validate_pay_period_dates (upd.start_date.getD p.start_date)
        (upd.end_date.getD p.end_date) = .ok () →
      (∃ q ∈ s.pay_periods, q.id ≠ i ∧
        sqlLe q.start_date (upd.end_date.getD p.end_date) = true ∧
        sqlLe (upd.start_date.getD p.start_date) q.end_date = true) →
      ∃ cs ce, update_pay_period s i upd = (s, .error (.overlapConflict cs ce))) ∧
    (∀ i, payPeriodsDisjoint (delete_pay_period s i).1.pay_periods) := by
  refine ⟨?_, ?_, ?_, ?_, ?_⟩
  · -- create preserves the invariant
    intro d
    rcases hv : validate_pay_period_dates d.start_date d.end_date with e | u
    · simp only [create_pay_period, hv]; exact hinv
    · cases u
      rcases hc : check_pay_period_overlap s.pay_periods d.start_date d.end_date none
        with e | u
      · simp only [create_pay_period, hv, hc]; exact hinv
      · cases u
        simp only [create_pay_period, hv, hc]
        have hall := check_overlap_ok _ _ _ _ hc
        rw [payPeriodsDisjoint, List.pairwise_append]
        refine ⟨hinv, List.pairwise_singleton _ _, ?_⟩
        intro a ha b hb
        simp only [List.mem_singleton] at hb
        subst hb
        have hfa := hall a ha
        simp only [overlapPred, Bool.and_true, Bool.and_eq_false_iff] at hfa
        rintro ⟨h1, h2⟩
        rcases hfa with hfa | hfa
        · rw [h1] at hfa; exact Bool.noConfusion hfa
        · rw [h2] at hfa; exact Bool.noConfusion hfa
  · -- create of an intersecting range returns OverlapConflict, store unchanged
    intro d hv hover
    obtain ⟨p, hp, h1, h2⟩ := hover
    obtain ⟨cs, ce, hc⟩ := check_overlap_conflict s.pay_periods d.start_date d.end_date
      none ⟨p, hp, by simp [overlapPred, h1, h2]⟩
    exact ⟨cs, ce, by simp only [create_pay_period, hv, hc]⟩
  · -- update preserves the invariant
    intro i upd
    rcases hfind : s.pay_periods.find? (fun q => q.id == i) with _ | p
    · simp only [update_pay_period, hfind]; exact hinv
    · have hpmem := List.mem_of_find?_eq_some hfind
      have hpid : (p.id == i) = true :=
        @List.find?_some _ (fun q => q.id == i) p s.pay_periods hfind
      rw [beq_iff_eq] at hpid
      cases hcond : upd.start_date.isSome || upd.end_date.isSome with
      | false =>
        have hs : upd.start_date = none := by
          rcases h : upd.start_date with _ | v
          · rfl
          · rw [h] at hcond; simp at hcond
        have he : upd.end_date = none := by
          rcases h : upd.end_date with _ | v
          · rfl
          · rw [h] at hcond; simp at hcond
        simp only [update_pay_period, hfind, hcond, Bool.false_eq_true, if_false]
        rw [payPeriodsDisjoint, List.pairwise_map]
        refine hinv.imp ?_
        intro a b hR
        by_cases hai : (a.id == i) = true <;> by_cases hbi : (b.id == i) = true <;>
          simpa [hai, hbi, applyPayPeriodUpdate, hs, he] using hR
      | true =>
        rcases hv : validate_pay_period_dates (upd.start_date.getD p.start_date)
            (upd.end_date.getD p.end_date) with e | u
        · simp only [update_pay_period, hfind, hcond, hv]; exact hinv
        · cases u
          rcases hc : check_pay_period_overlap s.pay_periods
              (upd.start_date.getD p.start_date) (upd.end_date.getD p.end_date)
              (some i) with e | u
          · simp only [update_pay_period, hfind, hcond, hv, hc]; exact hinv
          · cases u
            simp only [update_pay_period, hfind, hcond, hv, hc, if_true]
            have hall := check_overlap_ok _ _ _ _ hc
            rw [payPeriodsDisjoint, List.pairwise_map]
            refine (hinv.and hids).imp_of_mem ?_
            intro a b ha hb hR
            obtain ⟨hRab, hidab⟩ := hR
            have not_overlap : ∀ q ∈ s.pay_periods, q.id ≠ i →
                ¬(sqlLe q.start_date (upd.end_date.getD p.end_date) = true ∧
                  sqlLe (upd.start_date.getD p.start_date) q.end_date = true) := by
              intro q hq hqi hcontra
              obtain ⟨hq1, hq2⟩ := hcontra
              have hfq := hall q hq
              simp only [overlapPred, hq1, hq2, Bool.true_and] at hfq
              cases hi0 : (i == 0) with
              | true => rw [hi0] at hfq; simp at hfq
              | false => rw [hi0] at hfq; simp at hfq; exact hqi hfq
            by_cases hai : (a.id == i) = true <;> by_cases hbi : (b.id == i) = true
            · rw [beq_iff_eq] at hai hbi
              exact absurd (hai.trans hbi.symm) hidab
            · have hap : a = p := by
                by_contra hne
                rw [beq_iff_eq] at hai
                exact (hids.forall (fun x y hxy => hxy.symm) ha hpmem hne)
                  (hai.trans hpid.symm)
              rw [if_pos hai, if_neg hbi]
              subst hap
              have hb' : b.id ≠ i := by
                intro hbe
                exact hbi (by simp [hbe])
              have hno := not_overlap b hb hb'
              simp only [applyPayPeriodUpdate]
              rintro ⟨h1, h2⟩
              exact hno ⟨h2, h1⟩
            · have hbp : b = p := by
                by_contra hne
                rw [beq_iff_eq] at hbi
                exact (hids.forall (fun x y hxy => hxy.symm) hb hpmem hne)
                  (hbi.trans hpid.symm)
              rw [if_neg hai, if_pos hbi]
              subst hbp
              have ha' : a.id ≠ i := by
                intro hae
                exact hai (by simp [hae])
              have hno := not_overlap a ha ha'
              simp only [applyPayPeriodUpdate]
              rintro ⟨h1, h2⟩
              exact hno ⟨h1, h2⟩
            · rw [if_neg hai, if_neg hbi]
              exact hRab
  · -- date-changing update with an intersecting other period fails
    intro i upd p hfind hd hv hover
    have hcond : (upd.start_date.isSome || upd.end_date.isSome) = true := by
      rcases hd with h | h <;> simp [h]
    obtain ⟨q, hq, hqi, hq1, hq2⟩ := hover
    have hpred : overlapPred (upd.start_date.getD p.start_date)
        (upd.end_date.getD p.end_date) (some i) q = true := by
      simp only [overlapPred, hq1, hq2, Bool.true_and]
      cases hi0 : (i == 0) with
      | true => simp [hi0]
      | false => simp [hi0, hqi]
    obtain ⟨cs, ce, hc⟩ := check_overlap_conflict s.pay_periods
      (upd.start_date.getD p.start_date) (upd.end_date.getD p.end_date)
      (some i) ⟨q, hq, hpred⟩
    exact ⟨cs, ce, by simp only [update_pay_period, hfind, hcond, hv, hc, if_true]⟩
  · -- delete preserves the invariant
    intro i
    rcases hfind : s.pay_periods.find? (fun q => q.id == i) with _ | p
    · simp only [delete_pay_period, hfind]; exact hinv
    · simp only [delete_pay_period, hfind]
      exact hinv.sublist (List.filter_sublist _)

/-- A store holding the period 2024-01-01..2024-01-15. -/
def janPeriodStore : Store :=
  { pay_periods := [⟨1, "2024-01-01", "2024-01-15", none⟩], next_pay_period_id := 2 }

/-- C3 witness: against the stored period 2024-01-01..2024-01-15, creating
2024-01-15..2024-01-20 — touching the boundary — fails with
OverlapConflict and leaves the store unchanged. -/
theorem pay_period_no_overlap_invariant_inst :
    ∃ cs ce, create_pay_period janPeriodStore ⟨"2024-01-15", "2024-01-20", none⟩ =
      (janPeriodStore, .error (.overlapConflict cs ce)) :=
  (pay_period_no_overlap_invariant janPeriodStore
      (by simp [janPeriodStore]) (by simp [payPeriodsDisjoint, janPeriodStore])).2.1
    ⟨"2024-01-15", "2024-01-20", none⟩ (by decide)
    ⟨⟨1, "2024-01-01", "2024-01-15", none⟩, by simp [janPeriodStore], by decide, by decide⟩

/-- C8: an update whose change set contains neither start_date nor end_date
runs no date validation and no overlap check — it succeeds and leaves every
stored date unchanged, however the stored dates conflict — while a change
set containing a date hands the outcome to the validation and then the
overlap check. -/
theorem update_pay_period_checks_only_dates (s : Store) (i : Nat)
    (upd : PayPeriodUpdate) (p : PayPeriod)
    (hfind : s.pay_periods.find? (fun q => q.id == i) = some p) :
    (upd.start_date = none → upd.end_date = none →
      (update_pay_period s i upd).2 = .ok (applyPayPeriodUpdate upd p) ∧
      (update_pay_period s i upd).1.pay_periods.map
          (fun q => (q.start_date, q.end_date)) =
        s.pay_periods.map (fun q => (q.start_date, q.end_date))) ∧
    ((upd.start_date.isSome = true ∨ upd.end_date.isSome = true) →
      (∀ e, validate_pay_period_dates (upd.start_date.getD p.start_date)
          (upd.end_date.getD p.end_date) = .error e →
        update_pay_period s i upd = (s, .error e)) ∧
      (validate_pay_period_dates (upd.start_date.getD p.start_date)
          (upd.end_date.getD p.end_date) = .ok () →
        ∀ e, check_pay_period_overlap s.pay_periods
            (upd.start_date.getD p.start_date) (upd.end_date.getD p.end_date)
            (some i) = .error e →
          update_pay_period s i upd = (s, .error e))) := by
  constructor
  · intro hs he
    have hcond : (upd.start_date.isSome || upd.end_date.isSome) = false := by
      simp [hs, he]
    constructor
    · simp only [update_pay_period, hfind, hcond, Bool.false_eq_true, if_false]
    · simp only [update_pay_period, hfind, hcond, Bool.false_eq_true, if_false]
      exact map_dates_no_date_update s.pay_periods upd i hs he
  · intro hd
    have hcond : (upd.start_date.isSome || upd.end_date.isSome) = true := by
      rcases hd with h | h <;> simp [h]
    constructor
    · intro e hv
      simp only [update_pay_period, hfind, hcond, hv, if_true]
    · intro hv e hc
      simp only [update_pay_period, hfind, hcond, hv, hc, if_true]

/-- A store whose two periods chronologically conflict (as could arise via
the non-canonical-format hole or direct database edits). -/
def conflictedStore : Store :=
  { pay_periods := [⟨1, "2024-01-01", "2024-01-15", none⟩,
                    ⟨2, "2024-01-10", "2024-01-20", none⟩],
    next_pay_period_id := 3 }

/-- C8 witness: on a store whose stored periods already conflict, updating
only checking_budget of period 2 succeeds without any overlap re-check and
changes no date, while updating its start_date to a conflicting value
fails with the overlap error. -/
theorem update_pay_period_checks_only_dates_inst :
    ((update_pay_period conflictedStore 2 ⟨none, none, some (some 500)⟩).2 =
      .ok ⟨2, "2024-01-10", "2024-01-20", some 500⟩ ∧
      (update_pay_period conflictedStore 2
          ⟨none, none, some (some 500)⟩).1.pay_periods.map
          (fun q => (q.start_date, q.end_date)) =
        conflictedStore.pay_periods.map (fun q => (q.start_date, q.end_date))) ∧
    update_pay_period conflictedStore 2 ⟨some "2024-01-05", none, none⟩ =
      (conflictedStore, .error (.overlapConflict "2024-01-01" "2024-01-15")) :=
  ⟨(update_pay_period_checks_only_dates conflictedStore 2 ⟨none, none, some (some 500)⟩
      ⟨2, "2024-01-10", "2024-01-20", none⟩ (by decide)).1 rfl rfl,
   ((update_pay_period_checks_only_dates conflictedStore 2 ⟨some "2024-01-05", none, none⟩
      ⟨2, "2024-01-10", "2024-01-20", none⟩ (by decide)).2 (Or.inl (by decide))).2
      (by decide) (.overlapConflict "2024-01-01" "2024-01-15") (by decide)⟩

end Connelaide
